import Mathlib

/-!
Verification of the storyblok-richtext repository.

Shallow embedding of the two components of `src/images-optimization.ts`:

* `optimizeImage`, the image-URL builder (truthiness of JavaScript values is
  modelled explicitly; numbers are modelled as `Int`, since every value the
  claims exercise is an integer);
* the `RitchText()` renderer: `escapeHtml`, `attrsToString`, the resolver
  registry, `renderNode` and `render`.  The renderer's recursion is general
  (it is in fact non-terminating on some inputs), so it is embedded as a
  fuel-indexed family of functions returning `Option`: `none` means the
  computation did not finish within the given fuel, and a result that is
  `none` for every fuel is a non-terminating (stack-overflowing) run of the
  JavaScript original.  Every fuel-indexed function also returns the list of
  console diagnostics emitted during the run, in order.

The repository's `types.ts` is not part of the provided sources; the string
values of the node-type enumerations and the shape of
`ImageOptimizationOptions` are modelled from the spec where they are needed
(each such definition says so in its doc comment).
-/

namespace Storyblok

/-! ## Image optimization (`optimizeImage`) -/

/-- Filter options of the image optimizer.  Modelled from the spec: the
`ImageOptimizationOptions` interface lives in the repository's `types.ts`,
which is absent from the provided sources; the field set follows the spec's
description `filters?: (blur?, brightness?, fill?, format?, grayscale?,
quality?, rotate?)`.  Numeric values are modelled as `Int`. -/
structure FilterOpts where
  blur : Option Int := none
  brightness : Option Int := none
  fill : Option String := none
  format : Option String := none
  grayscale : Option Bool := none
  quality : Option Int := none
  rotate : Option Int := none

/-- Option bag of the image optimizer.  Modelled from the spec:
`(width?, height?, loading?, class?, filters?)`. -/
structure ImageOptions where
  width : Option Int := none
  height : Option Int := none
  loading : Option String := none
  «class» : Option String := none
  filters : Option FilterOpts := none

/-- The `options` argument of `optimizeImage`, of TypeScript type
`boolean | Partial ImageOptimizationOptions` and optional (`undef` models the
argument being absent / `undefined`). -/
inductive ImgArg where
  | undef : ImgArg
  | bool : Bool → ImgArg
  | obj : ImageOptions → ImgArg

/-- JavaScript truthiness of the `options` argument: `undefined` and `false`
are falsy, `true` and every object are truthy. -/
def ImgArg.truthy : ImgArg → Bool
  | .undef => false
  | .bool b => b
  | .obj _ => true

/-- JavaScript truthiness of an optional number: `undefined` and `0` are
falsy. -/
def truthyInt : Option Int → Option Int
  | some n => if n = 0 then none else some n
  | none => none

/-- JavaScript truthiness of an optional string: `undefined` and the empty
string are falsy. -/
def truthyStr : Option String → Option String
  | some s => if s = "" then none else some s
  | none => none

/-- The local `w` of `optimizeImage`: `0` unless `options.width` is truthy. -/
def imgW (o : ImageOptions) : Int := (truthyInt o.width).getD 0

/-- The local `h` of `optimizeImage`: `0` unless `options.height` is truthy. -/
def imgH (o : ImageOptions) : Int := (truthyInt o.height).getD 0

/-- The `attrs` record built by `optimizeImage` (insertion order preserved;
numeric values are recorded via their string interpolation, which is all the
callers use them for). -/
def imgAttrs (o : ImageOptions) : List (String × String) :=
  (match truthyInt o.width with
    | some n => [("width", toString n)]
    | none => []) ++
  (match truthyInt o.height with
    | some n => [("height", toString n)]
    | none => []) ++
  (match truthyStr o.loading with
    | some l => if l = "lazy" ∨ l = "eager" then [("loading", l)] else []
    | none => []) ++
  (match truthyStr o.«class» with
    | some c => [("class", c)]
    | none => [])

/-- One conditional push of a numeric filter parameter: pushed only when the
value is truthy. -/
def intFilter (name : String) (x : Option Int) : List String :=
  match truthyInt x with
  | some v => [name ++ "(" ++ toString v ++ ")"]
  | none => []

/-- The conditional push of the fill filter parameter. -/
def fillFilter (x : Option String) : List String :=
  match truthyStr x with
  | some v => ["fill(" ++ v ++ ")"]
  | none => []

/-- The conditional push of the argumentless grayscale filter parameter. -/
def grayscaleFilter (x : Option Bool) : List String :=
  match x with
  | some true => ["grayscale()"]
  | _ => []

/-- The conditional push of the rotate filter parameter: requires a truthy
value that is 90, 180 or 270. -/
def rotateFilter (x : Option Int) : List String :=
  match truthyInt x with
  | some r => if r = 90 ∨ r = 180 ∨ r = 270 then ["rotate(" ++ toString r ++ ")"] else []
  | none => []

/-- The conditional push of the format filter parameter: requires a truthy
value that is webp, png or jpeg. -/
def formatFilter (x : Option String) : List String :=
  match truthyStr x with
  | some v => if v = "webp" ∨ v = "png" ∨ v = "jpeg" then ["format(" ++ v ++ ")"] else []
  | none => []

/-- The `filterParams` array built by `optimizeImage`, in the source's push
order: blur, quality, brightness, fill, grayscale, rotate, format.  An
absent `filters` object skips the whole block. -/
def imgFilterParams (o : ImageOptions) : List String :=
  match o.filters with
  | none => []
  | some fs =>
    intFilter "blur" fs.blur ++ intFilter "quality" fs.quality ++
    intFilter "brightness" fs.brightness ++ fillFilter fs.fill ++
    grayscaleFilter fs.grayscale ++ rotateFilter fs.rotate ++ formatFilter fs.format

/-- Embeds `optimizeImage` (src/images-optimization.ts lines 3 to 44): a falsy
`options` returns `src` unchanged; otherwise `src` is extended with `/m/`,
then with `WxH` when both dimensions are positive, then with
`filters:...` (no separator) when any filter parameter was collected. -/
def optimizeImage (src : String) (options : ImgArg) : String × List (String × String) :=
  if options.truthy = false then (src, [])
  else
    let w := match options with
      | .obj o => imgW o
      | _ => 0
    let h := match options with
      | .obj o => imgH o
      | _ => 0
    let attrs := match options with
      | .obj o => imgAttrs o
      | _ => []
    let filterParams := match options with
      | .obj o => imgFilterParams o
      | _ => []
    let r0 := src ++ "/m/"
    let r1 := if 0 < w ∧ 0 < h then r0 ++ toString w ++ "x" ++ toString h else r0
    let r2 := if 0 < filterParams.length then
        r1 ++ "filters:" ++ String.intercalate ":" filterParams
      else r1
    (r2, attrs)

/-! ## HTML escaping (`escapeHtml`) -/

/-- The single-quote character, written by code point to keep source lines
free of quote characters. -/
def squote : Char := Char.ofNat 39

/-- Replace every occurrence of the character `c` by the character list `r`
(one global single-character regex replacement of the source). -/
def replaceChar (c : Char) (r : List Char) : List Char → List Char
  | [] => []
  | x :: xs => (if x = c then r else [x]) ++ replaceChar c r xs

/-- Embeds `escapeHtml` (lines 53 to 60) on character lists: five sequential
global replacements, ampersand first. -/
def escapeList (l : List Char) : List Char :=
  replaceChar squote ("&#039;".data)
    (replaceChar '"' ("&quot;".data)
      (replaceChar '>' ("&gt;".data)
        (replaceChar '<' ("&lt;".data)
          (replaceChar '&' ("&amp;".data) l))))

/-- Embeds `escapeHtml` on strings. -/
def escapeHtml (s : String) : String := String.mk (escapeList s.data)

/-- The escaped form of a single character. -/
def escChar (c : Char) : List Char :=
  if c = '&' then "&amp;".data
  else if c = '<' then "&lt;".data
  else if c = '>' then "&gt;".data
  else if c = '"' then "&quot;".data
  else if c = squote then "&#039;".data
  else [c]

/-- One simultaneous escaping pass: every character is escaped exactly once.
Proved equal to `escapeList`, which formalises the claim that the sequential
replacements of `escapeHtml` never escape an occurrence twice. -/
def escapeOnePass : List Char → List Char
  | [] => []
  | c :: l => escChar c ++ escapeOnePass l

/-- Modelled from the spec: the spec asserts that escaping round-trips
(unescaping the output yields the original text) but the repository contains
no unescaper, so the standard inverse mapping of the five HTML entities used
by `escapeHtml` is defined here. -/
def unescapeList : List Char → List Char
  | [] => []
  | c :: r =>
    if c = '&' ∧ r.take 4 = ['a', 'm', 'p', ';'] then '&' :: unescapeList (r.drop 4)
    else if c = '&' ∧ r.take 3 = ['l', 't', ';'] then '<' :: unescapeList (r.drop 3)
    else if c = '&' ∧ r.take 3 = ['g', 't', ';'] then '>' :: unescapeList (r.drop 3)
    else if c = '&' ∧ r.take 5 = ['q', 'u', 'o', 't', ';'] then '"' :: unescapeList (r.drop 5)
    else if c = '&' ∧ r.take 5 = ['#', '0', '3', '9', ';'] then squote :: unescapeList (r.drop 5)
    else c :: unescapeList r
termination_by l => l.length
decreasing_by all_goals (simp; try omega)

/-- Modelled from the spec: string form of `unescapeList`. -/
def unescapeHtml (s : String) : String := String.mk (unescapeList s.data)

/-! ### Lemmas about escaping -/

theorem replaceChar_append (c : Char) (r l1 l2 : List Char) :
    replaceChar c r (l1 ++ l2) = replaceChar c r l1 ++ replaceChar c r l2 := by
  induction l1 with
  | nil => rfl
  | cons x xs ih => simp [replaceChar, ih]

theorem escapeList_append (l1 l2 : List Char) :
    escapeList (l1 ++ l2) = escapeList l1 ++ escapeList l2 := by
  simp [escapeList, replaceChar_append]

theorem escapeList_single (c : Char) : escapeList [c] = escChar c := by
  by_cases h1 : c = '&'
  · subst h1; decide
  by_cases h2 : c = '<'
  · subst h2; decide
  by_cases h3 : c = '>'
  · subst h3; decide
  by_cases h4 : c = '"'
  · subst h4; decide
  by_cases h5 : c = squote
  · subst h5; decide
  · simp [escapeList, replaceChar, escChar, h1, h2, h3, h4, h5]

theorem escapeList_eq_onePass (l : List Char) : escapeList l = escapeOnePass l := by
  induction l with
  | nil => rfl
  | cons c l ih =>
    rw [← List.singleton_append, escapeList_append, escapeList_single, ih]
    rfl

theorem unescapeList_cons_ne (c : Char) (r : List Char) (h : c ≠ '&') :
    unescapeList (c :: r) = c :: unescapeList r := by
  simp [unescapeList, h]

theorem unescapeList_amp (t : List Char) :
    unescapeList ('&' :: 'a' :: 'm' :: 'p' :: ';' :: t) = '&' :: unescapeList t := by
  simp [unescapeList]

theorem unescapeList_lt (t : List Char) :
    unescapeList ('&' :: 'l' :: 't' :: ';' :: t) = '<' :: unescapeList t := by
  simp [unescapeList]

theorem unescapeList_gt (t : List Char) :
    unescapeList ('&' :: 'g' :: 't' :: ';' :: t) = '>' :: unescapeList t := by
  simp [unescapeList]

theorem unescapeList_quot (t : List Char) :
    unescapeList ('&' :: 'q' :: 'u' :: 'o' :: 't' :: ';' :: t) = '"' :: unescapeList t := by
  simp [unescapeList]

theorem unescapeList_apos (t : List Char) :
    unescapeList ('&' :: '#' :: '0' :: '3' :: '9' :: ';' :: t) = squote :: unescapeList t := by
  simp [unescapeList]

theorem unescapeList_escapeOnePass (l : List Char) :
    unescapeList (escapeOnePass l) = l := by
  induction l with
  | nil => simp [escapeOnePass, unescapeList]
  | cons c l ih =>
    rw [escapeOnePass]
    by_cases h1 : c = '&'
    · subst h1
      rw [show escChar '&' = ['&', 'a', 'm', 'p', ';'] from by decide]
      simp only [List.cons_append, List.nil_append]
      rw [unescapeList_amp, ih]
    by_cases h2 : c = '<'
    · subst h2
      rw [show escChar '<' = ['&', 'l', 't', ';'] from by decide]
      simp only [List.cons_append, List.nil_append]
      rw [unescapeList_lt, ih]
    by_cases h3 : c = '>'
    · subst h3
      rw [show escChar '>' = ['&', 'g', 't', ';'] from by decide]
      simp only [List.cons_append, List.nil_append]
      rw [unescapeList_gt, ih]
    by_cases h4 : c = '"'
    · subst h4
      rw [show escChar '"' = ['&', 'q', 'u', 'o', 't', ';'] from by decide]
      simp only [List.cons_append, List.nil_append]
      rw [unescapeList_quot, ih]
    by_cases h5 : c = squote
    · subst h5
      rw [show escChar squote = ['&', '#', '0', '3', '9', ';'] from by decide]
      simp only [List.cons_append, List.nil_append]
      rw [unescapeList_apos, ih]
    · have he : escChar c = [c] := by simp [escChar, h1, h2, h3, h4, h5]
      rw [he, List.singleton_append, unescapeList_cons_ne c _ h1, ih]

theorem unescapeHtml_escapeHtml (s : String) : unescapeHtml (escapeHtml s) = s := by
  show String.mk (unescapeList (escapeList s.data)) = s
  rw [escapeList_eq_onePass, unescapeList_escapeOnePass]

/-! ## The rich-text renderer (`RitchText`)

A `Node` models the duck-typed JavaScript node objects: every field that any
resolver or the tree walker reads is present as an `Option` (`none` models an
absent / `undefined` property).  Marks are modelled as `Node`s as well, since
the mark fold spreads a mark object into a node.  `children` holds the
rendered child strings that `renderNode` attaches before invoking a resolver.
-/

inductive Node where
  | mk (type : String) (attrs : Option (List (String × String)))
      (content : Option (List Node)) (text : Option String)
      (marks : Option (List Node)) (children : Option (List String))

def Node.type : Node → String
  | .mk t _ _ _ _ _ => t

def Node.attrs : Node → Option (List (String × String))
  | .mk _ a _ _ _ _ => a

def Node.content : Node → Option (List Node)
  | .mk _ _ c _ _ _ => c

def Node.text : Node → Option String
  | .mk _ _ _ tx _ _ => tx

def Node.marks : Node → Option (List Node)
  | .mk _ _ _ _ m _ => m

def Node.children : Node → Option (List String)
  | .mk _ _ _ _ _ ch => ch

/-- The spread `(...node, children)` of `renderNode`: same node with the
`children` property replaced. -/
def Node.withChildren : Node → Option (List String) → Node
  | .mk t a c tx m _, ch => .mk t a c tx m ch

/-- The spread `(...mark, text)` of the mark fold: the mark object with the
`text` property set to the accumulated string. -/
def Node.withText : Node → String → Node
  | .mk t a c _ m ch, tx => .mk t a c (some tx) m ch

/-- A block node carrying only a type and a content list. -/
def blockNode (t : String) (cs : List Node) : Node :=
  .mk t none (some cs) none none none

/-- A text node without marks. -/
def textNode (s : String) : Node :=
  .mk "text" none none (some s) none none

/-- A text node with marks. -/
def markedText (s : String) (ms : List Node) : Node :=
  .mk "text" none none (some s) (some ms) none

/-- A mark object without attributes. -/
def markNode (t : String) : Node :=
  .mk t none none none none none

/-- A mark object with attributes. -/
def markNodeA (t : String) (attrs : List (String × String)) : Node :=
  .mk t (some attrs) none none none none

/-- Embeds `attrsToString` (lines 49 to 51): keys serialised in insertion
order as space-joined key="value" pairs; the default parameter turns an
absent attrs object into the empty record. -/
def attrsToString (attrs : Option (List (String × String))) : String :=
  match attrs with
  | none => ""
  | some l => String.intercalate " " (l.map (fun kv => kv.1 ++ "=\"" ++ kv.2 ++ "\""))

/-- Optional-chained property read `node.attrs?.k` (first binding wins, as in
a JavaScript object literal). -/
def lookupAttr (attrs : Option (List (String × String))) (k : String) : Option String :=
  match attrs with
  | none => none
  | some l => (l.find? (fun kv => kv.1 == k)).map (fun kv => kv.2)

/-- The interpolation `s!` of a possibly-undefined JavaScript value: an absent
value prints as the string undefined. -/
def orUndefined (v : Option String) : String := v.getD "undefined"

/-- The expression `node.children?.join('')` used by every block resolver. -/
def joinChildren (n : Node) : String :=
  match n.children with
  | some l => String.join l
  | none => "undefined"

/-- Embeds the document resolver (line 119): no attribute string, no space. -/
def documentResolver (n : Node) : String :=
  "<div>" ++ joinChildren n ++ "</div>"

/-- Embeds `nodeResolver(tag)` (lines 64 to 66). -/
def nodeResolver (tag : String) (n : Node) : String :=
  "<" ++ tag ++ " " ++ attrsToString n.attrs ++ ">" ++ joinChildren n ++ "</" ++ tag ++ ">"

/-- Embeds `headingResolver` (line 68): the level is read from `attrs.level`
for both the opening and the closing tag, and the full attrs record is also
serialised into the opening tag. -/
def headingResolver (n : Node) : String :=
  let lvl := orUndefined (lookupAttr n.attrs "level")
  "<h" ++ lvl ++ " " ++ attrsToString n.attrs ++ ">" ++ joinChildren n ++ "</h" ++ lvl ++ ">"

/-- Embeds `markResolver(tag)` (lines 71 to 72). -/
def markResolver (tag : String) (n : Node) : String :=
  "<" ++ tag ++ " " ++ attrsToString n.attrs ++ ">" ++ orUndefined n.text ++ "</" ++ tag ++ ">"

/-- Embeds `linkResolver` (lines 93 to 116).  The switch on
`node.attrs?.linktype` falls through from asset to url; story reuses the href
verbatim; email prefixes mailto; any other value leaves href empty.  A truthy
`attrs.target` is appended as a literal target attribute after the computed
href. -/
def linkResolver (n : Node) : String :=
  let targetAttr :=
    match lookupAttr n.attrs "target" with
    | some v => if v = "" then "" else " target=\"" ++ v ++ "\""
    | none => ""
  let href :=
    match lookupAttr n.attrs "linktype" with
    | some lt =>
      if lt = "asset" ∨ lt = "url" then orUndefined (lookupAttr n.attrs "href")
      else if lt = "email" then "mailto:" ++ orUndefined (lookupAttr n.attrs "href")
      else if lt = "story" then orUndefined (lookupAttr n.attrs "href")
      else ""
    | none => ""
  "<a " ++ attrsToString n.attrs ++ " href=\"" ++ href ++ "\"" ++ targetAttr ++ ">" ++
    orUndefined n.text ++ "</a>"

/-- The value side of the resolver registry, defunctionalised. -/
inductive Resolver where
  | document : Resolver
  | heading : Resolver
  | block : String → Resolver
  | mark : String → Resolver
  | text : Resolver
  | link : Resolver
deriving DecidableEq

/-- Embeds the resolver `Map` (lines 118 to 137).  Modelled from the spec:
the node-type identifier strings come from the enumerations of the
repository's `types.ts`, which is absent from the provided sources; the
spec's data-model section fixes them as document, heading, paragraph,
unordered-list, ordered-list, list-item, text, link, anchor, styled, bold,
italic, underline, strike, code, superscript, subscript and highlight. -/
def lookupResolver (t : String) : Option Resolver :=
  if t = "document" then some .document
  else if t = "heading" then some .heading
  else if t = "paragraph" then some (.block "p")
  else if t = "unordered-list" then some (.block "ul")
  else if t = "ordered-list" then some (.block "ol")
  else if t = "list-item" then some (.block "li")
  else if t = "text" then some .text
  else if t = "link" then some .link
  else if t = "anchor" then some .link
  else if t = "styled" then some (.mark "span")
  else if t = "bold" then some (.mark "strong")
  else if t = "italic" then some (.mark "em")
  else if t = "underline" then some (.mark "u")
  else if t = "strike" then some (.mark "s")
  else if t = "code" then some (.mark "code")
  else if t = "superscript" then some (.mark "sup")
  else if t = "subscript" then some (.mark "sub")
  else if t = "highlight" then some (.mark "mark")
  else none

/-- The console.error diagnostic of `renderNode` for an unknown node type. -/
def noResolverError (t : String) : String :=
  "<Storyblok> No resolver found for node type " ++ t

/-- The console.warn diagnostic of `render` for a falsy input (whitespace of
the original template literal normalised to single spaces). -/
def noContentWarning : String :=
  "No content to render, The render method must receive an Object with a \"content\" field that is an array of nodes"

/-- The argument of the public `render` operation: a falsy value, one node,
or an array of nodes. -/
inductive RenderInput where
  | null : RenderInput
  | one : Node → RenderInput
  | many : List Node → RenderInput

/-!
The renderer proper.  `render`, `renderNode` and `textResolver` are mutually
recursive through the resolver registry, and the recursion is genuinely
non-terminating on some inputs (see the claims about marked text nodes), so
each function takes a fuel argument that every call decrements; `none` means
the fuel ran out.  A run of the JavaScript original terminates exactly when
some fuel suffices, and a run that yields `none` for every fuel is an
infinite recursion (a stack overflow) of the original.  Results pair the
produced string with the list of emitted console diagnostics, in order.
-/

mutual

/-- Embeds `render` (lines 158 to 166): a falsy input warns and yields the
empty string; an array renders each element with `renderNode` and joins; a
single node goes to `renderNode` directly. -/
def renderF (f : Nat) (i : RenderInput) : Option (String × List String) :=
  match f, i with
  | 0, _ => none
  | _ + 1, .null => some ("", [noContentWarning])
  | g + 1, .many ns =>
    (mapRenderNodeF g ns).map (fun r => (String.join r.1, r.2))
  | g + 1, .one n => renderNodeF g n

/-- Embeds `renderNode` (lines 139 to 156): resolver lookup, the direct
dispatch for text nodes, and the children-first rendering for every other
node. -/
def renderNodeF (f : Nat) (node : Node) : Option (String × List String) :=
  match f with
  | 0 => none
  | g + 1 =>
    match lookupResolver node.type with
    | none => some ("", [noResolverError node.type])
    | some r =>
      if node.type = "text" then
        applyResolverF g r node
      else
        match node.content with
        | none => applyResolverF g r (node.withChildren none)
        | some cs => do
          let (strs, d1) ← mapRenderF g cs
          let (s, d2) ← applyResolverF g r (node.withChildren (some strs))
          pure (s, d1 ++ d2)

/-- Invocation of a registry entry on a node. -/
def applyResolverF (f : Nat) (r : Resolver) (node : Node) : Option (String × List String) :=
  match f with
  | 0 => none
  | g + 1 =>
    match r with
    | .document => some (documentResolver node, [])
    | .heading => some (headingResolver node, [])
    | .block tag => some (nodeResolver tag node, [])
    | .mark tag => some (markResolver tag node, [])
    | .link => some (linkResolver node, [])
    | .text => textResolverF g node

/-- Embeds `textResolver` (lines 75 to 89).  When marks are present the fold
over them starts from `render(node)` with the FULL node, marks included,
exactly as the source does on line 82 (the destructured `rest` without the
marks is only used in the markless branch). -/
def textResolverF (f : Nat) (node : Node) : Option (String × List String) :=
  match f with
  | 0 => none
  | g + 1 =>
    match node.text with
    | none => some ("", [])
    | some t =>
      match node.marks with
      | none => some (escapeHtml t, [])
      | some ms => do
        let (s0, d0) ← renderF g (.one node)
        let (s, d1) ← foldMarksF g ms s0
        pure (s, d0 ++ d1)

/-- The reduce of `textResolver`: each mark wraps the accumulated string by
rendering the spread mark object. -/
def foldMarksF (f : Nat) (ms : List Node) (acc : String) : Option (String × List String) :=
  match f with
  | 0 => none
  | g + 1 =>
    match ms with
    | [] => some (acc, [])
    | m :: rest => do
      let (s, d1) ← renderF g (.one (m.withText acc))
      let (s2, d2) ← foldMarksF g rest s
      pure (s2, d1 ++ d2)

/-- The map `node.content.map(render)` of `renderNode`: children rendered
left to right, diagnostics concatenated in order. -/
def mapRenderF (f : Nat) (ns : List Node) : Option (List String × List String) :=
  match f with
  | 0 => none
  | g + 1 =>
    match ns with
    | [] => some ([], [])
    | n :: rest => do
      let (s, d1) ← renderF g (.one n)
      let (ss, d2) ← mapRenderF g rest
      pure (s :: ss, d1 ++ d2)

/-- The map `node.map(renderNode)` of `render` on array input. -/
def mapRenderNodeF (f : Nat) (ns : List Node) : Option (List String × List String) :=
  match f with
  | 0 => none
  | g + 1 =>
    match ns with
    | [] => some ([], [])
    | n :: rest => do
      let (s, d1) ← renderNodeF g n
      let (ss, d2) ← mapRenderNodeF g rest
      pure (s :: ss, d1 ++ d2)

end

/-! ### The infinite recursion on marked text nodes

On any text node that carries a `marks` array, `textResolver` seeds its fold
with `render(node)` on the full node, marks included; that call dispatches
straight back to `textResolver` on the same node, so the renderer recurses
forever (a stack overflow in JavaScript).  Formally: the fuel-indexed run is
`none` for every fuel. -/

theorem markedText_diverges (n : Node) (hty : n.type = "text")
    (t : String) (ht : n.text = some t) (ms : List Node) (hm : n.marks = some ms) :
    ∀ f : Nat, renderF f (.one n) = none ∧ renderNodeF f n = none ∧
      applyResolverF f .text n = none ∧ textResolverF f n = none := by
  have hl : lookupResolver "text" = some Resolver.text := by decide
  intro f
  induction f with
  | zero => exact ⟨rfl, rfl, rfl, rfl⟩
  | succ g ih =>
    refine ⟨ih.2.1, ?_, ih.2.2.2, ?_⟩
    · simp only [renderNodeF, hty, hl]
      simp [ih.2.2.1]
    · simp only [textResolverF, ht, hm]
      simp [ih.1]

/-- The concrete marked text node of claim C1. -/
def c1text : Node := markedText "x" [markNode "bold"]

/-- C1: the claim states that render terminates and returns a string on every
input; the code does not.  On the text node with text x and a single bold
mark, the renderer recurses forever: the fuel-indexed embedding returns
`none` at every fuel, so no amount of stack suffices for the JavaScript
original. -/
theorem c1_marked_text_render_never_terminates :
    ∀ f : Nat, renderF f (RenderInput.one c1text) = none := fun f =>
  (markedText_diverges c1text rfl "x" rfl [markNode "bold"] rfl f).1

/-- The concrete text node with marks bold then italic of claim C2. -/
def c2text : Node := markedText "text" [markNode "bold", markNode "italic"]

/-- C2: the claim states that a text node with marks bold, italic renders as
the escaped text wrapped in strong inside em; instead the mark fold never
terminates, because its initial accumulator re-renders the full marked node.
The fuel-indexed embedding returns `none` at every fuel. -/
theorem c2_marked_text_wrap_diverges :
    ∀ f : Nat, renderF f (RenderInput.one c2text) = none := fun f =>
  (markedText_diverges c2text rfl "text" rfl [markNode "bold", markNode "italic"] rfl f).1

/-- The text node of the end-to-end scenario of claim C3. -/
def c3text : Node := markedText "Hi <there>" [markNode "bold"]

/-- The paragraph of the end-to-end scenario of claim C3. -/
def c3para : Node := blockNode "paragraph" [c3text]

/-- The document of the end-to-end scenario of claim C3. -/
def c3doc : Node := blockNode "document" [c3para]

theorem c3text_diverges : ∀ f : Nat, renderF f (.one c3text) = none := fun f =>
  (markedText_diverges c3text rfl "Hi <there>" rfl [markNode "bold"] rfl f).1

theorem c3para_diverges : ∀ f : Nat, renderF f (.one c3para) = none := by
  intro f
  cases f with
  | zero => rfl
  | succ g =>
    show renderNodeF g c3para = none
    cases g with
    | zero => rfl
    | succ g2 =>
      have hl : lookupResolver c3para.type = some (Resolver.block "p") := by decide
      have hc : c3para.content = some [c3text] := rfl
      have htyn : ¬(c3para.type = "text") := by decide
      simp only [renderNodeF, hl, hc]
      rw [if_neg htyn]
      cases g2 with
      | zero => rfl
      | succ g3 => simp [mapRenderF, c3text_diverges g3]

/-- C3: the claim predicts the output div, p, strong, escaped text for the
document scenario; the code never produces any output on it, because the
bold-marked text node sends the renderer into infinite recursion: the
fuel-indexed embedding returns `none` at every fuel.  (Independently, the
document resolver emits a plain div with no space and no attribute string,
so even a terminating mark fold could not produce the claimed div-space
prefix.) -/
theorem c3_scenario_render_diverges :
    ∀ f : Nat, renderF f (RenderInput.one c3doc) = none := by
  intro f
  cases f with
  | zero => rfl
  | succ g =>
    show renderNodeF g c3doc = none
    cases g with
    | zero => rfl
    | succ g2 =>
      have hl : lookupResolver c3doc.type = some Resolver.document := by decide
      have hc : c3doc.content = some [c3para] := rfl
      have htyn : ¬(c3doc.type = "text") := by decide
      simp only [renderNodeF, hl, hc]
      rw [if_neg htyn]
      cases g2 with
      | zero => rfl
      | succ g3 => simp [mapRenderF, c3para_diverges g3]

/-- C6: a falsy top-level input yields the empty string together with the
no-content console warning, at any fuel to spare: the call returns normally,
so nothing escapes to the caller. -/
theorem c6_null_input_renders_empty (f : Nat) :
    renderF (f + 1) RenderInput.null = some ("", [noContentWarning]) := by
  simp [renderF]

/-- Rendering a markless text node takes four nested calls (render,
renderNode, the registry dispatch, textResolver) and yields the escaped text
with no diagnostics. -/
theorem renderF_textNode (g : Nat) (t : String) :
    renderF (g + 1 + 1 + 1 + 1) (RenderInput.one (textNode t)) = some (escapeHtml t, []) := by
  have hl : lookupResolver "text" = some Resolver.text := by decide
  have hty : (textNode t).type = "text" := rfl
  have htx : (textNode t).text = some t := rfl
  have hmk : (textNode t).marks = none := rfl
  simp only [renderF, renderNodeF, hty, hl, applyResolverF, textResolverF, htx, hmk]
  simp

/-- C4: a text node without marks renders, at any sufficient fuel, to exactly
the HTML-escaped text; the five sequential replacements of `escapeHtml`
equal one simultaneous single pass, so each occurrence of the five special
characters is escaped exactly once; escaping round-trips through the
spec-modelled unescaper; and the concrete single-pass example holds. -/
theorem c4_unmarked_text_escapes_once :
    (∀ (g : Nat) (t : String),
      renderF (g + 1 + 1 + 1 + 1) (RenderInput.one (textNode t)) = some (escapeHtml t, [])) ∧
    (∀ l : List Char, escapeList l = escapeOnePass l) ∧
    (∀ s : String, unescapeHtml (escapeHtml s) = s) ∧
    escapeHtml "A & B" = "A &amp; B" :=
  ⟨renderF_textNode, escapeList_eq_onePass, unescapeHtml_escapeHtml, by decide⟩

/-- C5: when one node of a paragraph has a type without a registry entry,
that node contributes the empty string plus the console diagnostic, and the
surrounding output is exactly the output of the same paragraph without the
unknown node. -/
theorem c5_unknown_type_keeps_siblings (u : Node) (h : lookupResolver u.type = none)
    (g : Nat) :
    renderF (g + 1 + 1 + 1 + 1 + 1 + 1 + 1 + 1 + 1 + 1 + 1 + 1)
        (RenderInput.one (blockNode "paragraph" [textNode "a", u, textNode "b"]))
      = some ("<p >ab</p>", [noResolverError u.type]) ∧
    renderF (g + 1 + 1 + 1 + 1 + 1 + 1 + 1 + 1 + 1 + 1 + 1 + 1)
        (RenderInput.one (blockNode "paragraph" [textNode "a", textNode "b"]))
      = some ("<p >ab</p>", []) := by
  have hp : lookupResolver "paragraph" = some (Resolver.block "p") := by decide
  have hnt : ¬("paragraph" = "text") := by decide
  constructor
  · simp only [renderF, renderNodeF,
      show (blockNode "paragraph" [textNode "a", u, textNode "b"]).type = "paragraph" from rfl,
      show (blockNode "paragraph" [textNode "a", u, textNode "b"]).content
        = some [textNode "a", u, textNode "b"] from rfl,
      hp]
    rw [if_neg hnt]
    simp only [mapRenderF, renderF_textNode]
    simp only [renderF, renderNodeF, h]
    simp only [Option.bind_some, Option.some_bind, applyResolverF]
    simp only [blockNode, Node.withChildren, nodeResolver, attrsToString, Node.attrs,
      joinChildren, Node.children]
    simp only [Option.bind_eq_bind, Option.some_bind, pure]
    refine congrArg some (Prod.ext ?_ ?_) <;> simp <;> decide
  · simp only [renderF, renderNodeF,
      show (blockNode "paragraph" [textNode "a", textNode "b"]).type = "paragraph" from rfl,
      show (blockNode "paragraph" [textNode "a", textNode "b"]).content
        = some [textNode "a", textNode "b"] from rfl,
      hp]
    rw [if_neg hnt]
    simp only [mapRenderF, renderF_textNode]
    simp only [Option.bind_some, Option.some_bind, applyResolverF]
    simp only [blockNode, Node.withChildren, nodeResolver, attrsToString, Node.attrs,
      joinChildren, Node.children]
    simp only [Option.bind_eq_bind, Option.some_bind, pure]
    refine congrArg some (Prod.ext ?_ ?_) <;> simp <;> decide

/-- Closed instance of C5, applying the theorem to the unregistered type
blockquote inside a paragraph. -/
theorem c5_unknown_type_keeps_siblings_witness :
    lookupResolver (Node.mk "blockquote" none none none none none).type = none ∧
    renderF (0 + 1 + 1 + 1 + 1 + 1 + 1 + 1 + 1 + 1 + 1 + 1 + 1)
        (RenderInput.one (blockNode "paragraph"
          [textNode "a", Node.mk "blockquote" none none none none none, textNode "b"]))
      = some ("<p >ab</p>",
          [noResolverError (Node.mk "blockquote" none none none none none).type]) :=
  ⟨by decide, (c5_unknown_type_keeps_siblings _ (by decide) 0).1⟩

/-- A heading node with the given level string and a single text child. -/
def headingN (lvl : String) : Node :=
  Node.mk "heading" (some [("level", lvl)]) (some [textNode "T"]) none none none

/-- C7: whenever `attrs.level` is present, the heading resolver produces the
same level in the opening and the closing tag; and for each concrete level 1
to 6, the full render of a heading with a text child gives matching hL tags
around the child. -/
theorem c7_heading_levels_match :
    (∀ (n : Node) (l : String), lookupAttr n.attrs "level" = some l →
      ∃ mid : String, headingResolver n = "<h" ++ l ++ mid ++ ("</h" ++ l ++ ">")) ∧
    renderF 12 (RenderInput.one (headingN "1")) = some ("<h1 level=\"1\">T</h1>", []) ∧
    renderF 12 (RenderInput.one (headingN "2")) = some ("<h2 level=\"2\">T</h2>", []) ∧
    renderF 12 (RenderInput.one (headingN "3")) = some ("<h3 level=\"3\">T</h3>", []) ∧
    renderF 12 (RenderInput.one (headingN "4")) = some ("<h4 level=\"4\">T</h4>", []) ∧
    renderF 12 (RenderInput.one (headingN "5")) = some ("<h5 level=\"5\">T</h5>", []) ∧
    renderF 12 (RenderInput.one (headingN "6")) = some ("<h6 level=\"6\">T</h6>", []) := by
  refine ⟨?_, by decide, by decide, by decide, by decide, by decide, by decide⟩
  intro n l h
  refine ⟨" " ++ attrsToString n.attrs ++ ">" ++ joinChildren n, ?_⟩
  simp only [headingResolver, h, orUndefined, Option.getD_some]
  simp [String.append_assoc]

/-- Closed instance of C7's general part at a concrete level-3 heading. -/
theorem c7_heading_levels_match_witness :
    lookupAttr (headingN "3").attrs "level" = some "3" ∧
    ∃ mid : String, headingResolver (headingN "3")
      = "<h" ++ "3" ++ mid ++ ("</h" ++ "3" ++ ">") :=
  ⟨by decide, c7_heading_levels_match.1 (headingN "3") "3" (by decide)⟩

/-- The email link mark of the C8 scenario. -/
def c8mark : Node := markNodeA "link" [("linktype", "email"), ("href", "a@b.com")]

/-- The text node go with the email link mark of the C8 scenario. -/
def c8text : Node := markedText "go" [c8mark]

/-- C8: the link resolver computes href as the claim states, per linktype
(asset, url and story verbatim; email with the mailto prefix; an
unrecognised linktype leaves href empty; a present target is appended as a
literal target attribute).  The claim's end-to-end scenario, however, never
produces output: rendering the marked text node recurses forever, so the
fuel-indexed embedding returns `none` at every fuel. -/
theorem c8_link_resolver_and_scenario :
    (∀ f : Nat, renderF f (RenderInput.one c8text) = none) ∧
    linkResolver (Node.mk "link" (some [("linktype", "asset"), ("href", "H")]) none (some "x") none none)
      = "<a linktype=\"asset\" href=\"H\" href=\"H\">x</a>" ∧
    linkResolver (Node.mk "link" (some [("linktype", "url"), ("href", "H")]) none (some "x") none none)
      = "<a linktype=\"url\" href=\"H\" href=\"H\">x</a>" ∧
    linkResolver (Node.mk "link" (some [("linktype", "story"), ("href", "H")]) none (some "x") none none)
      = "<a linktype=\"story\" href=\"H\" href=\"H\">x</a>" ∧
    linkResolver (Node.mk "link" (some [("linktype", "email"), ("href", "a@b.com")]) none (some "go") none none)
      = "<a linktype=\"email\" href=\"a@b.com\" href=\"mailto:a@b.com\">go</a>" ∧
    linkResolver (Node.mk "link" (some [("linktype", "zzz"), ("href", "H")]) none (some "x") none none)
      = "<a linktype=\"zzz\" href=\"H\" href=\"\">x</a>" ∧
    linkResolver (Node.mk "link" (some [("linktype", "url"), ("href", "H"), ("target", "_blank")]) none (some "x") none none)
      = "<a linktype=\"url\" href=\"H\" target=\"_blank\" href=\"H\" target=\"_blank\">x</a>" :=
  ⟨fun f => (markedText_diverges c8text rfl "go" rfl [c8mark] rfl f).1,
    by decide, by decide, by decide, by decide, by decide, by decide⟩

/-! ### Claims C9 and C10: the shape of the optimized image URL

The following claim* definitions follow the wording of claim C9 (as amended:
the filters segment is appended with no separating slash), to be compared
with the embedded `optimizeImage`. -/

/-- Modelled from the claim wording: the dimension segment WxH, appended
exactly when both width and height are positive. -/
def claimDimSeg (o : ImageOptions) : String :=
  match o.width, o.height with
  | some w, some h => if 0 < w ∧ 0 < h then toString w ++ "x" ++ toString h else ""
  | _, _ => ""

/-- Modelled from the claim wording: a truthy numeric filter key yields its
parameter, a falsy one is omitted. -/
def claimIntFilter (name : String) (x : Option Int) : List String :=
  match x with
  | some v => if v = 0 then [] else [name ++ "(" ++ toString v ++ ")"]
  | none => []

/-- Modelled from the claim wording: a truthy fill value yields its
parameter. -/
def claimFillFilter (x : Option String) : List String :=
  match x with
  | some v => if v = "" then [] else ["fill(" ++ v ++ ")"]
  | none => []

/-- Modelled from the claim wording: rotate is applied only when its value is
in 90/180/270. -/
def claimRotateFilter (x : Option Int) : List String :=
  match x with
  | some r => if r = 90 ∨ r = 180 ∨ r = 270 then ["rotate(" ++ toString r ++ ")"] else []
  | none => []

/-- Modelled from the claim wording: format is applied only when its value is
in webp/png/jpeg. -/
def claimFormatFilter (x : Option String) : List String :=
  match x with
  | some v => if v = "webp" ∨ v = "png" ∨ v = "jpeg" then ["format(" ++ v ++ ")"] else []
  | none => []

/-- Modelled from the claim wording: the recognised truthy filters, listed in
the fixed order blur, quality, brightness, fill, grayscale, rotate,
format. -/
def claimFilterList (o : ImageOptions) : List String :=
  match o.filters with
  | none => []
  | some fs =>
    claimIntFilter "blur" fs.blur ++ claimIntFilter "quality" fs.quality ++
    claimIntFilter "brightness" fs.brightness ++ claimFillFilter fs.fill ++
    grayscaleFilter fs.grayscale ++ claimRotateFilter fs.rotate ++ claimFormatFilter fs.format

/-- Modelled from the claim wording (as amended): the filters segment, empty
when no filter parameter is listed. -/
def claimFilterSeg (o : ImageOptions) : String :=
  match claimFilterList o with
  | [] => ""
  | ps => "filters:" ++ String.intercalate ":" ps

theorem intFilter_eq_claim (name : String) (x : Option Int) :
    intFilter name x = claimIntFilter name x := by
  cases x with
  | none => rfl
  | some v => by_cases hv : v = 0 <;> simp [intFilter, claimIntFilter, truthyInt, hv]

theorem fillFilter_eq_claim (x : Option String) :
    fillFilter x = claimFillFilter x := by
  cases x with
  | none => rfl
  | some v => by_cases hv : v = "" <;> simp [fillFilter, claimFillFilter, truthyStr, hv]

theorem rotateFilter_eq_claim (x : Option Int) :
    rotateFilter x = claimRotateFilter x := by
  cases x with
  | none => rfl
  | some r =>
    by_cases hr : r = 0
    · subst hr; simp [rotateFilter, claimRotateFilter, truthyInt]
    · simp [rotateFilter, claimRotateFilter, truthyInt, hr]

theorem formatFilter_eq_claim (x : Option String) :
    formatFilter x = claimFormatFilter x := by
  cases x with
  | none => rfl
  | some v =>
    by_cases hv : v = ""
    · subst hv; simp [formatFilter, claimFormatFilter, truthyStr]
    · simp [formatFilter, claimFormatFilter, truthyStr, hv]

theorem imgFilterParams_eq_claim (o : ImageOptions) :
    imgFilterParams o = claimFilterList o := by
  cases hfs : o.filters with
  | none => simp [imgFilterParams, claimFilterList, hfs]
  | some fs =>
    simp only [imgFilterParams, claimFilterList, hfs]
    rw [intFilter_eq_claim, intFilter_eq_claim, intFilter_eq_claim, fillFilter_eq_claim,
      rotateFilter_eq_claim, formatFilter_eq_claim]

theorem claimDimSeg_eq (o : ImageOptions) :
    claimDimSeg o =
      if 0 < imgW o ∧ 0 < imgH o then toString (imgW o) ++ "x" ++ toString (imgH o)
      else "" := by
  unfold claimDimSeg imgW imgH truthyInt
  cases o.width with
  | none => cases o.height <;> simp
  | some w =>
    cases o.height with
    | none => simp
    | some h =>
      by_cases hw : w = 0
      · subst hw; simp
      · by_cases hh : h = 0
        · subst hh; simp [hw]
        · simp [hw, hh]

/-- The concrete options of the C9 counterexample. -/
def c9opts : ImageOptions :=
  { width := some 300, height := some 200, filters := some { blur := some 5 } }

/-- Counterexample to C9 as stated: with positive dimensions and one filter,
the code appends the filters segment directly after the dimension segment,
with no separating slash, so the src claimed by C9 (with its leading slash
before filters) is not produced. -/
theorem c9_counterexample_no_slash_before_filters :
    (optimizeImage "base" (ImgArg.obj c9opts)).1 = "base/m/300x200filters:blur(5)" ∧
    (optimizeImage "base" (ImgArg.obj c9opts)).1 ≠ "base/m/300x200/filters:blur(5)" := by
  constructor <;> decide

/-- C9 as amended: for every options object the resulting src is the base
src, then the constant segment /m/, then the dimension segment exactly when
both width and height are positive, then the filters segment listing the
recognised truthy filters in the fixed order blur, quality, brightness,
fill, grayscale, rotate, format (rotate only for 90/180/270, format only for
webp/png/jpeg, everything else omitted) appended with no separating
slash. -/
theorem c9_amended_src_shape (src : String) (o : ImageOptions) :
    (optimizeImage src (ImgArg.obj o)).1
      = src ++ "/m/" ++ claimDimSeg o ++ claimFilterSeg o := by
  have hfp := imgFilterParams_eq_claim o
  unfold optimizeImage
  simp only [ImgArg.truthy, Bool.true_eq_false, if_false, hfp, claimDimSeg_eq]
  rcases hl : claimFilterList o with _ | ⟨p, ps⟩
  · simp only [claimFilterSeg, hl, List.length_nil, lt_self_iff_false, if_false]
    by_cases hd : 0 < imgW o ∧ 0 < imgH o
    · simp only [hd, and_self, if_true]
      simp only [String.append_assoc, String.append_empty]
    · simp only [hd, if_false]
      simp only [String.append_assoc, String.append_empty]
  · have hpos : 0 < (p :: ps).length := by simp
    simp only [claimFilterSeg, hl, hpos, if_true]
    by_cases hd : 0 < imgW o ∧ 0 < imgH o
    · simp only [hd, and_self, if_true]
      simp only [String.append_assoc, String.append_empty]
    · simp only [hd, if_false]
      simp only [String.append_assoc, String.append_empty]

/-- C10: a truthy options argument that produces neither a dimension segment
nor any filter parameter (in particular the boolean true and the empty
options object) yields exactly the src with the bare trailing /m/ segment,
while a falsy argument (absent or false) returns the src unchanged. -/
theorem c10_bare_m_segment :
    (∀ src : String, (optimizeImage src (ImgArg.bool true)).1 = src ++ "/m/") ∧
    (∀ src : String, (optimizeImage src (ImgArg.obj {})).1 = src ++ "/m/") ∧
    (∀ (src : String) (o : ImageOptions), ¬(0 < imgW o ∧ 0 < imgH o) →
      imgFilterParams o = [] → (optimizeImage src (ImgArg.obj o)).1 = src ++ "/m/") ∧
    (∀ src : String, (optimizeImage src ImgArg.undef).1 = src) ∧
    (∀ src : String, (optimizeImage src (ImgArg.bool false)).1 = src) := by
  refine ⟨fun src => rfl, fun src => rfl, ?_, fun src => rfl, fun src => rfl⟩
  intro src o hd hf
  unfold optimizeImage
  simp only [ImgArg.truthy, Bool.true_eq_false, if_false, hf, hd, List.length_nil,
    Nat.lt_irrefl]

/-- Closed instance of C10 at options carrying only a width: the width alone
yields no dimension segment, so the result is the bare /m/ suffix. -/
theorem c10_bare_m_segment_witness :
    ¬(0 < imgW { width := some 5 : ImageOptions } ∧
        0 < imgH { width := some 5 : ImageOptions }) ∧
    imgFilterParams { width := some 5 : ImageOptions } = [] ∧
    (optimizeImage "u" (ImgArg.obj { width := some 5 : ImageOptions })).1 = "u" ++ "/m/" :=
  ⟨by decide, by decide,
    c10_bare_m_segment.2.2.1 "u" { width := some 5 : ImageOptions } (by decide) (by decide)⟩

end Storyblok
